import Mathlib

/-!
Shallow embedding of the vinyl listening-room server core
(src/main.rs, src/rooms/router.rs, src/audio/input.rs) and proofs
about its specification claims.

Machine strings are modelled as lists of characters; the external
youtube-dl process is modelled as an oracle mapping a URL to an
optional response, so that every code path of the source functions
is represented explicitly.
-/

namespace VinylModel

/-- Embeds Rust str::split_once for a nonempty pattern: splits the
input at the first occurrence of the pattern, returning the parts
before and after it, or none if the pattern does not occur. -/
def splitOnce (pat : List Char) : List Char → Option (List Char × List Char)
  | [] => none
  | c :: rest =>
    if pat.isPrefixOf (c :: rest) then some ([], (c :: rest).drop pat.length)
    else (splitOnce pat rest).map (fun p => (c :: p.1, p.2))

/-- Embeds Rust str::split(sep): the full list of segments the split
iterator yields, in order.  Never empty: the empty input yields one
empty segment, as in Rust. -/
def splitChar (sep : Char) : List Char → List (List Char)
  | [] => [[]]
  | c :: rest =>
    if c == sep then [] :: splitChar sep rest
    else
      match splitChar sep rest with
      | [] => [[c]]
      | seg :: segs => (c :: seg) :: segs

/-- Embeds the first step of YouTubeVideo::is_valid_url: remove the
protocol if any (everything up to and including the first occurrence
of the separator between scheme and rest). -/
def stripScheme (url : List Char) : List Char :=
  match splitOnce ("://".data) url with
  | some p => p.2
  | none => url

/-- Embeds the second step of YouTubeVideo::is_valid_url: remove
everything up to and including the first occurrence of the www dot
marker, if any. -/
def stripWww (s : List Char) : List Char :=
  match splitOnce ("www.".data) s with
  | some p => p.2
  | none => s

/-- Embeds YouTubeVideo::is_valid_url from src/audio/input.rs: strip
scheme, strip the www marker, split on slash, inspect the first two
segments as domain and path. -/
def is_valid_url (url : List Char) : Bool :=
  let rest := stripScheme url
  let rest2 := stripWww rest
  let segs := splitChar ('/') rest2
  match segs[0]?, segs[1]? with
  | some domain, some path =>
    (domain == ("youtube.com".data) && ("watch?v=".data).isPrefixOf path)
      || domain == ("youtu.be".data)
  | _, _ => false

/-- One entry of the formats array that youtube-dl reports for a
video; only the fields that parse_from_url inspects are modelled. -/
structure MediaFormat where
  format : Option (List Char)
  url : Option (List Char)
deriving DecidableEq

/-- The fields of a youtube-dl single-video response that
parse_from_url inspects. -/
structure SingleVideoInfo where
  id : List Char
  title : List Char
  channel : Option (List Char)
  format : Option (List Char)
  formats : Option (List MediaFormat)
deriving DecidableEq

/-- The shape of a successful youtube-dl run, as in the youtube_dl
crate: either one video or a playlist. -/
inductive YoutubeDlOutput where
  | SingleVideo (video : SingleVideoInfo)
  | Playlist
deriving DecidableEq

/-- The external youtube-dl process, modelled as a function from the
requested URL to its response; none models a failed run (network
error or tool failure). -/
abbrev Oracle : Type := List Char → Option YoutubeDlOutput

/-- Embeds the YouTubeVideo struct of src/audio/input.rs. -/
structure YouTubeVideo where
  id : List Char
  title : List Char
  channel : List Char
  audio_stream_url : List Char
deriving DecidableEq

/-- Embeds YouTubeVideo::fingerprint: the resolved title. -/
def YouTubeVideo.fingerprint (v : YouTubeVideo) : List Char :=
  v.title

/-- Embeds the Display impl of YouTubeVideo: title, the word by,
channel. -/
def YouTubeVideo.display (v : YouTubeVideo) : List Char :=
  v.title ++ (" by ".data) ++ v.channel

/-- Embeds parse_from_url of src/audio/input.rs: run youtube-dl on
the URL (the oracle), reject failures and playlists, take id and
title, default the channel, select the format whose name equals the
top-level format field, and require that the selected format carries
a url, which becomes audio_stream_url. -/
def parse_from_url (oracle : Oracle) (url : List Char) : Option YouTubeVideo :=
  match oracle url with
  | none => none
  | some YoutubeDlOutput.Playlist => none
  | some (YoutubeDlOutput.SingleVideo video) =>
    let id := video.id
    let title := video.title
    let channel := video.channel.getD ("Unknown".data)
    let format_name := video.format
    let fmt := video.formats.bind (fun formats =>
      formats.find? (fun f => f.format == format_name))
    (fmt.bind MediaFormat.url).map (fun audio_stream_url =>
      { id := id, title := title, channel := channel,
        audio_stream_url := audio_stream_url })

/-- Embeds YouTubeVideo::from_url: reject URLs that fail
is_valid_url, otherwise resolve through youtube-dl. -/
def YouTubeVideo.from_url (oracle : Oracle) (url : List Char) : Option YouTubeVideo :=
  if is_valid_url url then parse_from_url oracle url else none

/-- Embeds the Input enum of src/audio/input.rs: a tagged variant
over supported source kinds, currently only YouTube. -/
inductive Input where
  | YouTube (v : YouTubeVideo)
deriving DecidableEq

/-- Embeds Input::fingerprint. -/
def Input.fingerprint : Input → List Char
  | Input.YouTube v => v.fingerprint

/-- Embeds the Display impl of Input. -/
def Input.display : Input → List Char
  | Input.YouTube v => v.display

/-- The priority-ordered parser registry of Input::parse: the array
of predicates tried in order. -/
def inputPredicates (oracle : Oracle) : List (List Char → Option Input) :=
  [fun url => (YouTubeVideo.from_url oracle url).map Input.YouTube]

/-- Embeds Input::parse: try the registered parsers in order and
return the first match (find_map over the predicate array). -/
def Input.parse (oracle : Oracle) (s : List Char) : Option Input :=
  (inputPredicates oracle).findSome? (fun f => f s)

/-- A room record as the router sees it: an identity string plus the
persisted name and owner. -/
structure Room where
  id : List Char
  name : List Char
  owner : List Char
deriving DecidableEq

/-- The room store state visible to the router handlers: the rooms
collection, the room-to-queue map (association list from room id to
queue id), and the next fresh queue id.
Modelled from the spec: the RoomStore implementation itself is not
under src (only its callers in src/rooms/router.rs and
src/main.rs are); the rooms and queues fields are those the router
reads directly, and nextQueue models the Queue Store allocating a
fresh queue per room. -/
structure RoomStore where
  rooms : List Room
  queues : List (List Char × Nat)
  nextQueue : Nat
deriving DecidableEq

/-- The composed store handed to every request handler; only the
room store part is needed by the modelled routes. -/
structure Store where
  room_store : RoomStore
deriving DecidableEq

/-- Embeds the ApiError variants the modelled routes produce. -/
inductive ApiError where
  | NotFound (what : List Char)
  | Other (msg : List Char)
deriving DecidableEq

/-- The room-to-queue lookup the router performs:
store.room_store.queues.get(room). -/
def lookupQueue (st : RoomStore) (rid : List Char) : Option Nat :=
  (st.queues.find? (fun p => p.1 == rid)).map Prod.snd

/-- The room lookup shared by the router handlers:
rooms.iter().find(r.id == id). -/
def findRoom (st : RoomStore) (id : List Char) : Option Room :=
  st.rooms.find? (fun r => r.id == id)

/-- Embeds the add_input handler of src/rooms/router.rs: look up the
room (404 if absent), parse the submitted reference (client error if
parsing fails), build the confirmation text, then call the store
add_input with its result discarded, and return the confirmation.
The store add_input internals are not under src, so the handler is
parameterized by addFn; none models a failing store call, whose
outcome the handler ignores. -/
def add_input_route (oracle : Oracle)
    (addFn : List Char → List Char → Input → Store → Option Store)
    (st : Store) (user : List Char) (id : List Char) (query : List Char) :
    Except ApiError (List Char) × Store :=
  match findRoom st.room_store id with
  | none => (Except.error (ApiError.NotFound ("Room".data)), st)
  | some r =>
    match Input.parse oracle query with
    | none => (Except.error (ApiError.Other ("could not parse input".data)), st)
    | some input =>
      let response := ("Added ".data) ++ input.display ++ (" to the queue".data)
      match addFn user r.id input st with
      | some st2 => (Except.ok response, st2)
      | none => (Except.ok response, st)

/-- The observable outcomes of the get_room_queue handler of
src/rooms/router.rs; panicked is the expect branch taken when the
queues map has no entry for a room that was just found. -/
inductive QueueResult where
  | notFound
  | panicked
  | ok (queueId : Nat)
deriving DecidableEq

/-- Embeds the get_room_queue handler of src/rooms/router.rs up to
the queue-id lookup: find the room (404 if absent), then look its
queue up in the queues map, panicking if absent. -/
def get_room_queue (st : RoomStore) (id : List Char) : QueueResult :=
  match findRoom st id with
  | none => QueueResult.notFound
  | some r =>
    match lookupQueue st r.id with
    | none => QueueResult.panicked
    | some q => QueueResult.ok q

/-- The empty room store before any room is loaded or created. -/
def RoomStore.empty : RoomStore :=
  { rooms := [], queues := [], nextQueue := 0 }

/-- Modelled from the spec: registering one room together with its
queue, the shared step of create_room and of startup restoration
(create_room creates an empty Queue via the Queue Store and records
the Room-to-Queue mapping; a Room and its Queue are created
atomically). -/
def RoomStore.registerRoom (r : Room) (st : RoomStore) : RoomStore :=
  { rooms := st.rooms ++ [r],
    queues := (r.id, st.nextQueue) :: st.queues,
    nextQueue := st.nextQueue + 1 }

/-- Modelled from the spec: create_room persists the room via the
Database collaborator and registers it in memory only on success (no
half-done state on a DatabaseError). dbOk models the persistence
outcome. -/
def RoomStore.create_room (dbOk : Bool) (r : Room) (st : RoomStore) : RoomStore :=
  if dbOk then st.registerRoom r else st

/-- Modelled from the spec: startup initialization loads all
persisted rooms from the Database and reconstructs in-memory
Room/Queue state, one queue per room. -/
def RoomStore.init (persisted : List Room) : RoomStore :=
  persisted.foldl (fun st r => st.registerRoom r) RoomStore.empty

/-- The reachable room store states: a state restored at startup from
any persisted room list, followed by any sequence of create_room
operations with any persistence outcomes. -/
inductive Reachable : RoomStore → Prop
  | restored (persisted : List Room) : Reachable (RoomStore.init persisted)
  | created (dbOk : Bool) (r : Room) (st : RoomStore) :
      Reachable st → Reachable (st.create_room dbOk r)

/-- The room-queue coupling invariant: every room in the rooms
collection has an entry in the queues map. -/
def queueInvariant (st : RoomStore) : Prop :=
  ∀ r ∈ st.rooms, (lookupQueue st r.id).isSome = true

/-- The three Bus handlers registered in Vinyl::new, in registration
order. -/
inductive HandlerName where
  | logger
  | queueStoreHandler
  | sseHandler
deriving DecidableEq

/-- The externally observable steps of the startup sequence in
src/main.rs (Vinyl::new followed by Vinyl::run). -/
inductive StartupAction where
  | buildRuntime
  | connectDatabase
  | registerHandler (h : HandlerName)
  | initRooms
  | startPlayback
  | startIngestion
  | startDispatch
  | startServer
deriving DecidableEq

/-- The ordered actions Vinyl::new performs on its success path:
build the runtime, connect to the database, register the three Bus
handlers, initialize the room store from persisted rooms. -/
def vinyl_new_actions : List StartupAction :=
  [StartupAction.buildRuntime,
   StartupAction.connectDatabase,
   StartupAction.registerHandler HandlerName.logger,
   StartupAction.registerHandler HandlerName.queueStoreHandler,
   StartupAction.registerHandler HandlerName.sseHandler,
   StartupAction.initRooms]

/-- The ordered actions Vinyl::run performs: start the playback and
ingestion loops, spawn the Bus dispatch thread (which then repeatedly
calls tick), and run the HTTP server. -/
def vinyl_run_actions : List StartupAction :=
  [StartupAction.startPlayback,
   StartupAction.startIngestion,
   StartupAction.startDispatch,
   StartupAction.startServer]

/-- The whole successful startup, as main sequences it: Vinyl::new
completes before Vinyl::run begins. -/
def startup_actions : List StartupAction :=
  vinyl_new_actions ++ vinyl_run_actions

/-- Embeds the VinylError enum of src/main.rs. -/
inductive VinylError where
  | Database (e : List Char)
  | Fatal (e : List Char)
deriving DecidableEq

/-- Embeds VinylError::hint: the operator-facing remediation text per
variant. -/
def VinylError.hint : VinylError → List Char
  | VinylError.Database _ =>
    ("This is a database error. Make sure the SurrealDB instance is properly installed and running, then try again.".data)
  | VinylError.Fatal _ =>
    ("This error is fatal, and should not happen.".data)

/-- Embeds Vinyl::new, parameterized by the database connection
outcome and the room store initialization outcome; the second
component counts how many times the database connect call ran. A
connection error propagates immediately as VinylError::Database, so
no retry and no later step happens. -/
def vinyl_new_result (connectResult : Except (List Char) Unit) (initOk : Bool) :
    Except VinylError Unit × Nat :=
  match connectResult with
  | Except.error e => (Except.error (VinylError.Database e), 1)
  | Except.ok _ =>
    if initOk then (Except.ok (), 1)
    else (Except.error (VinylError.Fatal ("init failed".data)), 1)

/-- The externally observable actions of main in src/main.rs. -/
inductive MainAction where
  | logStarted
  | logStartupFailureBanner
  | logErrorMessage (e : VinylError)
  | logHint (h : List Char)
deriving DecidableEq

/-- Embeds main of src/main.rs: on a successful Vinyl::new, log the
success and perform the run actions; on failure, log the banner, the
error and its hint, and perform no run action at all. -/
def main_startup (connectResult : Except (List Char) Unit) (initOk : Bool) :
    List MainAction × List StartupAction :=
  match (vinyl_new_result connectResult initOk).1 with
  | Except.ok _ => ([MainAction.logStarted], vinyl_run_actions)
  | Except.error e =>
    ([MainAction.logStartupFailureBanner,
      MainAction.logErrorMessage e,
      MainAction.logHint e.hint], [])

/-- The type of the store add_input call the router makes with its
result discarded. -/
abbrev AddFn : Type :=
  List Char → List Char → Input → Store → Option Store

/-- A youtube-dl response predicate: every format entry that carries
a url carries a non-empty one.  Playlists and absent format lists
hold vacuously. -/
def formatUrlsNonempty : YoutubeDlOutput → Bool
  | YoutubeDlOutput.Playlist => true
  | YoutubeDlOutput.SingleVideo video =>
    (video.formats.getD []).all (fun f =>
      match f.url with
      | none => true
      | some u => !u.isEmpty)

/-- A concrete room used in concrete evaluations. -/
def roomOne : Room :=
  { id := ("r1".data), name := ("Room One".data), owner := ("alice".data) }

/-- A concrete store holding roomOne with its queue. -/
def storeOne : Store :=
  { room_store :=
    { rooms := [roomOne], queues := [(("r1".data), 0)], nextQueue := 1 } }

/-- An oracle on which every youtube-dl run fails (network error). -/
def failingOracle : Oracle := fun _ => none

/-- A store add_input call that succeeds and leaves the store as
produced. -/
def keepFn : AddFn := fun _ _ _ st => some st

/-- A store add_input call that fails (models a failed or panicked
store call). -/
def dropFn : AddFn := fun _ _ _ _ => none

/-- A concrete well-formed youtube-dl single-video response. -/
def goodInfo : SingleVideoInfo :=
  { id := ("abc".data), title := ("Song".data), channel := some ("Chan".data),
    format := some ("bestaudio".data),
    formats := some [{ format := some ("bestaudio".data),
                       url := some ("https://cdn.example/audio".data) }] }

/-- An oracle on which every youtube-dl run returns goodInfo. -/
def goodOracle : Oracle :=
  fun _ => some (YoutubeDlOutput.SingleVideo goodInfo)

/-- The video parse_from_url produces from goodInfo. -/
def goodVideo : YouTubeVideo :=
  { id := ("abc".data), title := ("Song".data), channel := ("Chan".data),
    audio_stream_url := ("https://cdn.example/audio".data) }

/-- A youtube-dl response whose selected format carries an empty
url string. -/
def emptyUrlInfo : SingleVideoInfo :=
  { id := ("abc".data), title := ("Song".data), channel := some ("Chan".data),
    format := some ("bestaudio".data),
    formats := some [{ format := some ("bestaudio".data), url := some [] }] }

/-- An oracle on which every youtube-dl run returns emptyUrlInfo. -/
def emptyUrlOracle : Oracle :=
  fun _ => some (YoutubeDlOutput.SingleVideo emptyUrlInfo)

/-- The video parse_from_url produces from emptyUrlInfo: its source
location is the empty string. -/
def emptyUrlVideo : YouTubeVideo :=
  { id := ("abc".data), title := ("Song".data), channel := ("Chan".data),
    audio_stream_url := [] }

/-- A resolved video sharing its title with titleTwinB but nothing
else. -/
def titleTwinA : YouTubeVideo :=
  { id := ("idA".data), title := ("Same Title".data), channel := ("ChanA".data),
    audio_stream_url := ("https://a.example/x".data) }

/-- A resolved video sharing its title with titleTwinA but nothing
else. -/
def titleTwinB : YouTubeVideo :=
  { id := ("idB".data), title := ("Same Title".data), channel := ("ChanB".data),
    audio_stream_url := ("https://b.example/y".data) }

/-- Helper: an unrecognized reference makes Input::parse return
none, whatever the oracle, since the only registered parser rejects
it before any resolution. -/
theorem parse_none_of_invalid (oracle : Oracle) (s : List Char)
    (h : is_valid_url s = false) : Input.parse oracle s = none := by
  have hfu : YouTubeVideo.from_url oracle s = none := by
    unfold YouTubeVideo.from_url
    rw [h]
    simp
  unfold Input.parse inputPredicates
  simp [List.findSome?_cons, hfu]

/-- C4: the three positive and three negative reference-validity test
vectors from the spec evaluate as the spec states on is_valid_url. -/
theorem is_valid_url_test_vectors :
    is_valid_url ("https://www.youtube.com/watch?v=X".data) = true ∧
    is_valid_url ("https://youtube.com/watch?v=X".data) = true ∧
    is_valid_url ("youtube.com/watch?v=X".data) = true ∧
    is_valid_url ("yourtube.com/watch?v=X".data) = false ∧
    is_valid_url ("https://google.com".data) = false ∧
    is_valid_url ("kpofkagt".data) = false := by
  decide

/-- C5: the fingerprint of an Input is exactly the resolved title, so
two resolved videos with identical titles have identical
fingerprints even when id, channel and stream url differ, and the
function is deterministic. -/
theorem fingerprint_deterministic_from_title :
    (∀ v : YouTubeVideo, Input.fingerprint (Input.YouTube v) = v.title) ∧
    (∀ v1 v2 : YouTubeVideo, v1.title = v2.title →
      Input.fingerprint (Input.YouTube v1) = Input.fingerprint (Input.YouTube v2)) := by
  constructor
  · intro v
    rfl
  · intro v1 v2 h
    simp only [Input.fingerprint, YouTubeVideo.fingerprint, h]

/-- Witness for C5 at two concrete videos sharing only their title. -/
theorem fingerprint_deterministic_witness :
    Input.fingerprint (Input.YouTube titleTwinA) = Input.fingerprint (Input.YouTube titleTwinB) :=
  fingerprint_deterministic_from_title.2 titleTwinA titleTwinB (by decide)

/-- C9: the verdict of is_valid_url depends only on what remains
after stripping the scheme and then everything up to and including
the first www marker, so an input whose real leading host is not
youtube.com, such as a youtube path hidden behind evil.com, is
accepted. -/
theorem is_valid_url_ignores_leading_junk :
    (∀ u1 u2 : List Char, stripWww (stripScheme u1) = stripWww (stripScheme u2) →
      is_valid_url u1 = is_valid_url u2) ∧
    is_valid_url ("https://evil.com/www.youtube.com/watch?v=x".data) = true := by
  constructor
  · intro u1 u2 h
    unfold is_valid_url
    dsimp only
    rw [h]
  · decide

/-- Witness for C9: two inputs with equal remainders after stripping
get the same verdict. -/
theorem is_valid_url_ignores_leading_junk_witness :
    is_valid_url ("https://www.youtube.com/watch?v=X".data) =
      is_valid_url ("youtube.com/watch?v=X".data) :=
  is_valid_url_ignores_leading_junk.1 _ _ (by decide)

/-- C2: a reference no registered parser recognizes is rejected
synchronously by the add_input route with a client error and the
store, hence the queue, is left unchanged; and in the registry
combinator the parsers are tried in order with the first match
winning. -/
theorem unrecognized_reference_rejected_synchronously
    (oracle : Oracle) (addFn : AddFn) (st : Store) (user id query : List Char) (r : Room)
    (hroom : findRoom st.room_store id = some r)
    (hinvalid : is_valid_url query = false) :
    add_input_route oracle addFn st user id query =
      (Except.error (ApiError.Other ("could not parse input".data)), st) ∧
    (∀ (g : List Char → Option Input) (gs : List (List Char → Option Input))
        (s : List Char) (v : Input), g s = some v →
        (g :: gs).findSome? (fun f => f s) = some v) := by
  constructor
  · unfold add_input_route
    rw [hroom, parse_none_of_invalid oracle query hinvalid]
  · intro g gs s v hg
    simp [List.findSome?_cons, hg]

/-- Witness for C2 at a concrete unrecognized reference on an
existing room. -/
theorem unrecognized_reference_rejected_witness :
    add_input_route failingOracle keepFn storeOne ("u".data) ("r1".data) ("kpofkagt".data) =
      (Except.error (ApiError.Other ("could not parse input".data)), storeOne) :=
  (unrecognized_reference_rejected_synchronously failingOracle keepFn storeOne
    ("u".data) ("r1".data) ("kpofkagt".data) roomOne (by decide) (by decide)).1

/-- C1 counterexample: a reference the parser recognizes, on an
existing room, whose resolution fails with a network error, makes
the add_input route return a synchronous error response and leaves
the store unchanged, so the caller never received a success response
for a pending entry. -/
theorem resolution_failure_surfaces_synchronously_cex :
    is_valid_url ("youtube.com/watch?v=abc".data) = true ∧
    findRoom storeOne.room_store ("r1".data) = some roomOne ∧
    Input.parse failingOracle ("youtube.com/watch?v=abc".data) = none ∧
    add_input_route failingOracle keepFn storeOne ("u".data) ("r1".data)
        ("youtube.com/watch?v=abc".data) =
      (Except.error (ApiError.Other ("could not parse input".data)), storeOne) :=
  ⟨by decide, by rfl, by rfl, by rfl⟩

/-- C1 amended: a resolution failure for a recognized reference on
an existing room is surfaced synchronously as an error response to
the submitting caller, before any pending entry is created: the
route resolves the reference in the request path and returns a
client error with the store unchanged. -/
theorem resolution_failure_synchronous_error
    (oracle : Oracle) (addFn : AddFn) (st : Store) (user id query : List Char) (r : Room)
    (hroom : findRoom st.room_store id = some r)
    (hvalid : is_valid_url query = true)
    (hfail : Input.parse oracle query = none) :
    add_input_route oracle addFn st user id query =
      (Except.error (ApiError.Other ("could not parse input".data)), st) := by
  unfold add_input_route
  rw [hroom, hfail]

/-- Witness for the amended C1 at a concrete recognized reference
whose resolution fails. -/
theorem resolution_failure_synchronous_error_witness :
    add_input_route failingOracle dropFn storeOne ("u2".data) ("r1".data)
        ("youtube.com/watch?v=zz".data) =
      (Except.error (ApiError.Other ("could not parse input".data)), storeOne) :=
  resolution_failure_synchronous_error failingOracle dropFn storeOne
    ("u2".data) ("r1".data) ("youtube.com/watch?v=zz".data) roomOne
    (by rfl) (by decide) (by rfl)

/-- C10: once the room is found and the reference parses, the
add_input route returns the success confirmation whatever the store
add_input call does, since its result is discarded. -/
theorem add_input_success_response_unconditional
    (oracle : Oracle) (addFn : AddFn) (st : Store) (user id query : List Char)
    (r : Room) (input : Input)
    (hroom : findRoom st.room_store id = some r)
    (hparse : Input.parse oracle query = some input) :
    (add_input_route oracle addFn st user id query).1 =
      Except.ok (("Added ".data) ++ input.display ++ (" to the queue".data)) := by
  unfold add_input_route
  rw [hroom, hparse]
  cases haddFn : addFn user r.id input st <;> simp [haddFn]

/-- Witness for C10 at a concrete parsed input on an existing room
with a store add_input call that fails: the success text is returned
anyway. -/
theorem add_input_success_response_witness :
    (add_input_route goodOracle dropFn storeOne ("u".data) ("r1".data)
        ("youtube.com/watch?v=ok".data)).1 =
      Except.ok (("Added ".data) ++ (Input.YouTube goodVideo).display ++ (" to the queue".data)) :=
  add_input_success_response_unconditional goodOracle dropFn storeOne
    ("u".data) ("r1".data) ("youtube.com/watch?v=ok".data) roomOne
    (Input.YouTube goodVideo) (by rfl) (by rfl)

/-- Helper: registering a room makes its queue lookup succeed. -/
theorem lookupQueue_registerRoom_same (st : RoomStore) (r : Room) :
    (lookupQueue (st.registerRoom r) r.id).isSome = true := by
  unfold lookupQueue RoomStore.registerRoom
  simp [List.find?]

/-- Helper: registering a room preserves every queue lookup that
already succeeded. -/
theorem lookupQueue_registerRoom_mono (st : RoomStore) (r : Room) (rid : List Char)
    (h : (lookupQueue st rid).isSome = true) :
    (lookupQueue (st.registerRoom r) rid).isSome = true := by
  unfold lookupQueue at h ⊢
  unfold RoomStore.registerRoom
  by_cases hb : (r.id == rid) = true
  · simp [List.find?, hb]
  · simpa [List.find?, hb] using h

/-- Helper: registering a room preserves the room-queue coupling
invariant. -/
theorem queueInvariant_registerRoom (st : RoomStore) (r : Room)
    (h : queueInvariant st) : queueInvariant (st.registerRoom r) := by
  intro x hx
  have hx2 : x ∈ st.rooms ∨ x = r := by
    simpa [RoomStore.registerRoom, List.mem_append] using hx
  rcases hx2 with hx' | hxr
  · exact lookupQueue_registerRoom_mono st r x.id (h x hx')
  · rw [hxr]
    exact lookupQueue_registerRoom_same st r

/-- Helper: create_room preserves the invariant whatever the
persistence outcome. -/
theorem queueInvariant_create_room (dbOk : Bool) (r : Room) (st : RoomStore)
    (h : queueInvariant st) : queueInvariant (st.create_room dbOk r) := by
  unfold RoomStore.create_room
  cases dbOk
  · simpa using h
  · simpa using queueInvariant_registerRoom st r h

/-- Helper: the empty store satisfies the invariant. -/
theorem queueInvariant_empty : queueInvariant RoomStore.empty := by
  intro x hx
  simp [RoomStore.empty] at hx

/-- Helper: folding registerRoom over any room list preserves the
invariant. -/
theorem queueInvariant_foldl (l : List Room) (st : RoomStore)
    (h : queueInvariant st) :
    queueInvariant (l.foldl (fun s r => s.registerRoom r) st) := by
  induction l generalizing st with
  | nil => exact h
  | cons a t ih => exact ih _ (queueInvariant_registerRoom st a h)

/-- Helper: every reachable room store state satisfies the
room-queue coupling invariant. -/
theorem queueInvariant_reachable (st : RoomStore) (h : Reachable st) :
    queueInvariant st := by
  induction h with
  | restored persisted =>
    exact queueInvariant_foldl persisted RoomStore.empty queueInvariant_empty
  | created dbOk r st' _ ih => exact queueInvariant_create_room dbOk r st' ih

/-- C3: in every reachable room store state every room has a queue
entry, so the queue lookup of get_room_queue performed after a
successful room lookup never takes its panic branch. -/
theorem room_implies_queue_no_panic (st : RoomStore) (hst : Reachable st)
    (id : List Char) :
    queueInvariant st ∧ get_room_queue st id ≠ QueueResult.panicked := by
  refine ⟨queueInvariant_reachable st hst, ?_⟩
  unfold get_room_queue
  cases hr : findRoom st id with
  | none => simp
  | some r =>
    have hmem : r ∈ st.rooms := by
      unfold findRoom at hr
      exact List.mem_of_find?_eq_some hr
    have hq := queueInvariant_reachable st hst r hmem
    cases hlq : lookupQueue st r.id with
    | none => rw [hlq] at hq; simp at hq
    | some q => simp [hlq]

/-- Witness for C3 at a concrete state restored from one persisted
room. -/
theorem room_implies_queue_witness :
    queueInvariant (RoomStore.init [roomOne]) ∧
    get_room_queue (RoomStore.init [roomOne]) ("r1".data) ≠ QueueResult.panicked :=
  room_implies_queue_no_panic (RoomStore.init [roomOne])
    (Reachable.restored [roomOne]) ("r1".data)

/-- C6 counterexample: when youtube-dl reports an empty url string
for the selected format, parse_from_url returns a video whose
audio_stream_url is the empty string, so the returned source
location is not always non-empty. -/
theorem parse_from_url_empty_source_cex :
    parse_from_url emptyUrlOracle ("https://youtube.com/watch?v=a".data) =
      some emptyUrlVideo ∧
    emptyUrlVideo.audio_stream_url = [] :=
  ⟨by rfl, by rfl⟩

/-- C6 amended: parse_from_url only returns a video when the
selected format carried a url, and that url becomes the source
location unchanged; hence whenever every format url youtube-dl
reports is non-empty, the returned audio_stream_url is non-empty. -/
theorem parse_from_url_source_nonempty_of_formats_nonempty
    (oracle : Oracle) (url : List Char) (v : YouTubeVideo)
    (hne : ∀ out, oracle url = some out → formatUrlsNonempty out = true)
    (h : parse_from_url oracle url = some v) :
    v.audio_stream_url ≠ [] := by
  unfold parse_from_url at h
  cases ho : oracle url with
  | none => rw [ho] at h; simp at h
  | some out =>
    rw [ho] at h
    cases out with
    | Playlist => simp at h
    | SingleVideo video =>
      simp only [Option.map_eq_some', Option.bind_eq_some] at h
      obtain ⟨u, ⟨f, ⟨hfmt, hurl⟩⟩, hv⟩ := h
      obtain ⟨fs, hfs, hfind⟩ := hfmt
      have hmem : f ∈ fs := List.mem_of_find?_eq_some hfind
      have hall := hne _ ho
      simp only [formatUrlsNonempty] at hall
      rw [hfs] at hall
      simp only [Option.getD_some, List.all_eq_true] at hall
      have hf := hall f hmem
      rw [hurl] at hf
      simp at hf
      intro hempty
      rw [← hv] at hempty
      simp at hempty
      rw [hempty] at hf
      simp at hf

/-- Witness for the amended C6 at a concrete well-formed youtube-dl
response. -/
theorem parse_from_url_source_nonempty_witness :
    goodVideo.audio_stream_url ≠ [] :=
  parse_from_url_source_nonempty_of_formats_nonempty goodOracle
    ("youtube.com/watch?v=ok".data) goodVideo
    (fun out hout => by
      injection hout with h2
      rw [← h2]
      rfl)
    (by rfl)

/-- C7: in the startup sequence of main, the room store
initialization and all three Bus handler registrations come strictly
before the dispatch thread is spawned and before the HTTP server is
started. -/
theorem startup_registrations_before_dispatch_and_server :
    startup_actions.indexOf StartupAction.initRooms <
      startup_actions.indexOf StartupAction.startDispatch ∧
    startup_actions.indexOf StartupAction.initRooms <
      startup_actions.indexOf StartupAction.startServer ∧
    startup_actions.indexOf (StartupAction.registerHandler HandlerName.logger) <
      startup_actions.indexOf StartupAction.startDispatch ∧
    startup_actions.indexOf (StartupAction.registerHandler HandlerName.logger) <
      startup_actions.indexOf StartupAction.startServer ∧
    startup_actions.indexOf (StartupAction.registerHandler HandlerName.queueStoreHandler) <
      startup_actions.indexOf StartupAction.startDispatch ∧
    startup_actions.indexOf (StartupAction.registerHandler HandlerName.queueStoreHandler) <
      startup_actions.indexOf StartupAction.startServer ∧
    startup_actions.indexOf (StartupAction.registerHandler HandlerName.sseHandler) <
      startup_actions.indexOf StartupAction.startDispatch ∧
    startup_actions.indexOf (StartupAction.registerHandler HandlerName.sseHandler) <
      startup_actions.indexOf StartupAction.startServer := by
  decide

/-- C8: when the database connection fails at startup, main logs the
failure banner, the error itself and the operator-facing remediation
hint, performs none of the run actions (no server, no playback or
ingestion loop, no dispatch thread), and the connect call ran
exactly once. -/
theorem database_failure_is_fatal (e : List Char) (initOk : Bool) :
    main_startup (Except.error e) initOk =
      ([MainAction.logStartupFailureBanner,
        MainAction.logErrorMessage (VinylError.Database e),
        MainAction.logHint ((VinylError.Database e).hint)], []) ∧
    (VinylError.Database e).hint =
      ("This is a database error. Make sure the SurrealDB instance is properly installed and running, then try again.".data) ∧
    (vinyl_new_result (Except.error e) initOk).2 = 1 :=
  ⟨rfl, rfl, rfl⟩

end VinylModel
